import Mathlib

/-!
Verification of the dithered-gradient rendering pipeline
(`src/lib/backgrounds/dithered-gradient.ts`).

Numbers are modelled as rationals (`ℚ`); GLSL `floor` is `Int.floor`,
GLSL `fract` is `Int.fract`, JavaScript `Math.round` is `⌊x + 1/2⌋`.
Strings (palette colors) are modelled as `List Char`.
-/

namespace Dice

/-- Source helper `clamp(value, min, max) = Math.min(Math.max(value, min), max)`. -/
def clamp (value lo hi : ℚ) : ℚ := min (max value lo) hi

/-- JavaScript `Math.round`: round half toward positive infinity. -/
def jsRound (x : ℚ) : ℤ := ⌊x + 1 / 2⌋

/-- The `DitherType` union from the source. -/
inductive DitherType
  | ordered | blueNoise | d8x8 | d4x4 | d2x2 | random
deriving DecidableEq

/-- Function `normalizeDitherType`: maps the legacy aliases onto the canonical types. -/
def normalizeDitherType (t : DitherType) : DitherType :=
  if t = DitherType.ordered then DitherType.d8x8
  else if t = DitherType.blueNoise then DitherType.random
  else t

/-- A `DitherConfig` partial object: every field optional (TS `?` fields). -/
structure DitherConfigOpt where
  ditherType : Option DitherType := none
  ditherStrength : Option ℚ := none
  levels : Option ℚ := none
  pixelSize : Option ℚ := none
  colorFront : Option (List Char) := none
  colorBack : Option (List Char) := none
  colorHighlight : Option (List Char) := none
  useOriginalColors : Option Bool := none
  enabled : Option Bool := none

/-- Type `DitherConfigInternal`: all fields present. `levels` is an integer after
`Math.round` in the merge. -/
structure DitherConfigInternal where
  ditherType : DitherType
  ditherStrength : ℚ
  levels : ℤ
  pixelSize : ℚ
  colorFront : List Char
  colorBack : List Char
  colorHighlight : List Char
  useOriginalColors : Bool
  enabled : Bool

/-- JS whitespace test used by `String.prototype.trim` (modelled by
`Char.isWhitespace`). -/
def isJsWhitespace (c : Char) : Bool := c.isWhitespace

/-- JavaScript `value.trim()` on a character list. -/
def trimChars (l : List Char) : List Char :=
  ((l.dropWhile isJsWhitespace).reverse.dropWhile isJsWhitespace).reverse

/-- Function `normalizeColor(value, fallback)` from the source: non-strings and
blank strings fall back; otherwise a missing leading `#` is prepended. -/
def normalizeColor (value : Option (List Char)) (fallback : List Char) : List Char :=
  match value with
  | none => fallback
  | some v =>
    let trimmed := trimChars v
    if trimmed = [] then fallback
    else if trimmed.head? = some '#' then trimmed
    else '#' :: trimmed

/-- Constant `DEFAULT_DITHER_CONFIG` from the source. -/
def DEFAULT_DITHER_CONFIG : DitherConfigInternal where
  ditherType := DitherType.d4x4
  ditherStrength := 1
  levels := 5
  pixelSize := 2
  colorFront := "#ffffff".toList
  colorBack := "#000000".toList
  colorHighlight := "#ffffff".toList
  useOriginalColors := false
  enabled := true

/-- Function `mergeDitherConfig(partial)` from the source: defaults fill missing
fields, numeric fields are clamped, colors normalized. -/
def mergeDitherConfig (p : DitherConfigOpt) : DitherConfigInternal where
  ditherType := normalizeDitherType (p.ditherType.getD DEFAULT_DITHER_CONFIG.ditherType)
  ditherStrength := clamp (p.ditherStrength.getD DEFAULT_DITHER_CONFIG.ditherStrength) 0 1
  levels := min (max (jsRound (p.levels.getD (DEFAULT_DITHER_CONFIG.levels : ℚ))) 2) 16
  pixelSize := clamp (p.pixelSize.getD DEFAULT_DITHER_CONFIG.pixelSize) (1/2) 8
  colorFront := normalizeColor p.colorFront DEFAULT_DITHER_CONFIG.colorFront
  colorBack := normalizeColor p.colorBack DEFAULT_DITHER_CONFIG.colorBack
  colorHighlight := normalizeColor p.colorHighlight DEFAULT_DITHER_CONFIG.colorHighlight
  useOriginalColors := p.useOriginalColors.getD DEFAULT_DITHER_CONFIG.useOriginalColors
  enabled := p.enabled.getD DEFAULT_DITHER_CONFIG.enabled

/-- Uniform `mixStrength = config.enabled ? clamp(config.ditherStrength, 0, 1) : 0`
(from `applyDitherConfig` / `createPostMaterial`). -/
def mixStrengthOf (cfg : DitherConfigInternal) : ℚ :=
  if cfg.enabled then clamp cfg.ditherStrength 0 1 else 0

/-- The `u_colorSteps` uniform: `Math.max(2, config.levels)`. -/
def colorStepsOf (cfg : DitherConfigInternal) : ℚ := max 2 (cfg.levels : ℚ)

/-- Shader luminance: `dot(baseColor, vec3(0.2126, 0.7152, 0.0722))`. -/
def luminanceOf (r g b : ℚ) : ℚ := r * 0.2126 + g * 0.7152 + b * 0.0722

/-- The quantization portion of the dither fragment shader `main`:
`steps = max(u_colorSteps, 2.0)`, `centered = threshold - 0.5`,
`biased = clamp(luminance + centered * u_mixStrength, 0.0, 1.0)`,
`quantized = floor(biased * steps + 0.5) / steps`. -/
def shaderQuantize (r g b threshold mixStrength colorSteps : ℚ) : ℚ :=
  let luminance := luminanceOf r g b
  let steps := max colorSteps 2
  let centered := threshold - 0.5
  let biased := clamp (luminance + centered * mixStrength) 0 1
  ((⌊biased * steps + 0.5⌋ : ℤ) : ℚ) / steps

/-- Matrix `BAYER_2X2` from the dither fragment shader. -/
def BAYER_2X2 : List ℕ := [0, 2, 3, 1]

/-- Matrix `BAYER_4X4` from the dither fragment shader. -/
def BAYER_4X4 : List ℕ :=
  [ 0,  8,  2, 10,
   12,  4, 14,  6,
    3, 11,  1,  9,
   15,  7, 13,  5]

/-- Matrix `BAYER_8X8` from the dither fragment shader. -/
def BAYER_8X8 : List ℕ :=
  [ 0, 32,  8, 40,  2, 34, 10, 42,
   48, 16, 56, 24, 50, 18, 58, 26,
   12, 44,  4, 36, 14, 46,  6, 38,
   60, 28, 52, 20, 62, 30, 54, 22,
    3, 35, 11, 43,  1, 33,  9, 41,
   51, 19, 59, 27, 49, 17, 57, 25,
   15, 47,  7, 39, 13, 45,  5, 37,
   63, 31, 55, 23, 61, 29, 53, 21]

/-- Function `bayerThreshold(coord, size)`: `pos = ivec2(mod(coord, size))`,
`index = pos.y * size + pos.x`, then index the matrix for the given size and
normalize by its cell count.  The grid coordinates reaching this function are
integer-valued (they come from `floor`), and GLSL `mod` with a positive
modulus lands in `[0, size)`, which is `Int.emod`. -/
def bayerThreshold (coordX coordY : ℤ) (size : ℕ) : ℚ :=
  let posX := coordX % (size : ℤ)
  let posY := coordY % (size : ℤ)
  let index := (posY * size + posX).toNat
  if size = 2 then (BAYER_2X2.getD index 0 : ℚ) / 4
  else if size = 4 then (BAYER_4X4.getD index 0 : ℚ) / 16
  else (BAYER_8X8.getD index 0 : ℚ) / 64

/-- Function `hash21(p)` from the dither fragment shader (`fract` is `Int.fract`). -/
def hash21 (px py : ℚ) : ℚ :=
  let p1x := Int.fract (px * 0.3183099) + 0.1
  let p1y := Int.fract (py * 0.3678794) + 0.1
  let d := p1x * (p1x + 19.19) + p1y * (p1y + 19.19)
  let p2x := p1x + d
  let p2y := p1y + d
  Int.fract (p2x * p2y)

/-- Function `sampleThreshold(pixel, ditherType, pxSize)` from the dither fragment
shader: type 1 is the random hash; otherwise the pixel is floored onto a
`max(pxSize, 1)`-sized grid and a Bayer matrix is sampled (type 2 → 2×2,
type 3 → 4×4, otherwise 8×8). -/
def sampleThreshold (pixelX pixelY : ℚ) (ditherType : ℤ) (pxSize : ℚ) : ℚ :=
  if ditherType = 1 then hash21 pixelX pixelY
  else
    let gx := ⌊pixelX / max pxSize 1⌋
    let gy := ⌊pixelY / max pxSize 1⌋
    if ditherType = 2 then bayerThreshold gx gy 2
    else if ditherType = 3 then bayerThreshold gx gy 4
    else bayerThreshold gx gy 8

/-- The `u_pxSize` uniform as set by `applyDitherConfig`:
`Math.max(1, config.pixelSize) * Math.max(pixelRatio, 1)`. -/
def uPxSizeOf (pixelSize pixelRatio : ℚ) : ℚ :=
  max 1 pixelSize * max pixelRatio 1

/-- A GLSL `vec4` color (r, g, b, a), each component a rational. -/
structure Vec4 where
  r : ℚ
  g : ℚ
  b : ℚ
  a : ℚ

/-- GLSL `step(edge, x)`: 0 when `x < edge`, else 1. -/
def stepG (edge x : ℚ) : ℚ := if x < edge then 0 else 1

/-- GLSL `mix(x, y, a) = x·(1−a) + y·a`. -/
def mixG (x y a : ℚ) : ℚ := x * (1 - a) + y * a

/-- The `u_originalColors` branch of the dither fragment shader `main`
(two/three-tone recolorization), producing `paletteColor` before the final
`mixStrength` blend with the base color:
`highlightMask = step(1.02 - 0.02*steps, quantized)`, premultiplied
front/highlight blend, scale by `quantized`, composite the background
underneath, then un-premultiply guarding against near-zero opacity. -/
def paletteOriginalColors (steps quantized : ℚ)
    (front back highlight : Vec4) : ℚ × ℚ × ℚ :=
  let highlightMask := stepG (1.02 - 0.02 * steps) quantized
  let fgR := front.r * front.a
  let fgG := front.g * front.a
  let fgB := front.b * front.a
  let bgR := back.r * back.a
  let bgG := back.g * back.a
  let bgB := back.b * back.a
  let hlR := highlight.r * highlight.a
  let hlG := highlight.g * highlight.a
  let hlB := highlight.b * highlight.a
  let fgOpacity := front.a
  let bgOpacity := back.a
  let hlOpacity := highlight.a
  let tintedR := mixG fgR hlR highlightMask
  let tintedG := mixG fgG hlG highlightMask
  let tintedB := mixG fgB hlB highlightMask
  let tintedOpacity := mixG fgOpacity hlOpacity highlightMask
  let colorR := tintedR * quantized
  let colorG := tintedG * quantized
  let colorB := tintedB * quantized
  let opacity := tintedOpacity * quantized
  let colorR2 := colorR + bgR * (1 - opacity)
  let colorG2 := colorG + bgG * (1 - opacity)
  let colorB2 := colorB + bgB * (1 - opacity)
  let opacity2 := opacity + bgOpacity * (1 - opacity)
  (colorR2 / max opacity2 (1 / 10000),
   colorG2 / max opacity2 (1 / 10000),
   colorB2 / max opacity2 (1 / 10000))

/-- Constant `MAX_PIXEL_RATIO` from the source (renamed here). -/
def PIXEL_RATIO_MAX : ℚ := 5/2

/-- Constant `MIN_PIXEL_RATIO` from the source (renamed here). -/
def PIXEL_RATIO_MIN : ℚ := 1

/-- Function `autoRenderScale(width, height, dpr)` from the source. -/
def autoRenderScale (width height : ℤ) (dpr : ℚ) : ℚ :=
  if min width height ≤ 720 then 0.6
  else if 2 ≤ dpr then 0.75
  else 1

/-- The mutable sizing state touched by `DitheredGradient.handleResize`:
last recorded container dimensions, effective pixel ratio, renderer size,
render-target size, camera aspect and the post material's `u_resolution`. -/
structure ResizeState where
  lastContainerWidth : ℤ
  lastContainerHeight : ℤ
  pixelRatio : ℚ
  rendererWidth : ℤ
  rendererHeight : ℤ
  rendererPixelRatio : ℚ
  targetWidth : ℤ
  targetHeight : ℤ
  cameraAspect : ℚ
  resolutionX : ℤ
  resolutionY : ℤ

/-- Method `DitheredGradient.handleResize(force)`: floors the container rect to at
least 1×1, returns unchanged when not forced and dimensions match the last
recorded ones, else clamps the device pixel ratio to
[PIXEL_RATIO_MIN, PIXEL_RATIO_MAX], picks the explicit `renderScale` or the
automatic heuristic, clamps the product again, and resizes the renderer,
render target, camera aspect and post-material resolution. -/
def handleResize (s : ResizeState) (force : Bool) (rectW rectH : ℚ)
    (rawDpr : ℚ) (renderScale : Option ℚ) : ResizeState :=
  let width := max 1 ⌊rectW⌋
  let height := max 1 ⌊rectH⌋
  if force = false ∧ width = s.lastContainerWidth
      ∧ height = s.lastContainerHeight then s
  else
    let dpr := clamp rawDpr PIXEL_RATIO_MIN PIXEL_RATIO_MAX
    let scale := renderScale.getD (autoRenderScale width height dpr)
    let pixelRatio := clamp (dpr * scale) PIXEL_RATIO_MIN PIXEL_RATIO_MAX
    let canvasWidth := max 1 (jsRound ((width : ℚ) * pixelRatio))
    let canvasHeight := max 1 (jsRound ((height : ℚ) * pixelRatio))
    { lastContainerWidth := width
      lastContainerHeight := height
      pixelRatio := pixelRatio
      rendererWidth := width
      rendererHeight := height
      rendererPixelRatio := pixelRatio
      targetWidth := canvasWidth
      targetHeight := canvasHeight
      cameraAspect := (width : ℚ) / (height : ℚ)
      resolutionX := canvasWidth
      resolutionY := canvasHeight }

/-- Modelled from the spec (claim C6's formula, for refutation): the claimed
effective pixel ratio `clamp(devicePixelRatio · scale, MIN_RATIO, MAX_RATIO)`
where `scale` is the explicit `renderScale` if set, else the heuristic
evaluated on the raw device pixel ratio. -/
def claimedPixelRatio (width height : ℤ) (rawDpr : ℚ)
    (renderScale : Option ℚ) : ℚ :=
  clamp (rawDpr * renderScale.getD (autoRenderScale width height rawDpr))
    PIXEL_RATIO_MIN PIXEL_RATIO_MAX

/-- A JavaScript number as far as `Number.isFinite` is concerned. -/
inductive JsNum
  | fin (q : ℚ)
  | nan
  | posInf
  | negInf
deriving DecidableEq

/-- JavaScript `Number.isFinite`. -/
def JsNum.isFinite : JsNum → Bool
  | .fin _ => true
  | _ => false

/-- The time-source state of `DitheredGradient`: `manualTime` (null or a
finite value — only finite values are ever stored) and `startTime`. -/
structure TimeState where
  manualTime : Option ℚ
  startTime : ℚ
deriving DecidableEq

/-- Method `DitheredGradient.renderFrame(time?)`: a finite numeric argument is
stored as the manual time; then if a manual time is set the frame is drawn at
it, otherwise at the elapsed auto time `(now − startTime) · 0.001`
(initializing `startTime` to `now` when it is 0).  Returns the new state and
the time the frame was drawn at. -/
def renderFrame (s : TimeState) (time : Option JsNum) (now : ℚ) :
    TimeState × ℚ :=
  let s1 := match time with
    | some (JsNum.fin q) => { s with manualTime := some q }
    | _ => s
  match s1.manualTime with
  | some m => (s1, m)
  | none =>
    let s2 := if s1.startTime = 0 then { s1 with startTime := now } else s1
    (s2, (now - s2.startTime) * 0.001)

/-- Method `DitheredGradient.setManualTime(time)`: a finite number is stored and a
frame is drawn at it (returned as `some`); null or a non-finite number clears
the manual time and draws nothing. -/
def setManualTime (s : TimeState) (time : Option JsNum) :
    TimeState × Option ℚ :=
  match time with
  | some (JsNum.fin q) => ({ s with manualTime := some q }, some q)
  | _ => ({ s with manualTime := none }, none)

/-- One frame of the animated loop (`DitheredGradient.render` +
`drawFrame`): initializes `startTime` from the callback timestamp when 0,
then draws at `manualTime ?? elapsed`. -/
def loopFrame (s : TimeState) (time : ℚ) : TimeState × ℚ :=
  let s1 := if s.startTime = 0 then { s with startTime := time } else s
  let elapsed := (time - s1.startTime) * 0.001
  (s1, s1.manualTime.getD elapsed)

/-- A frame event that draws without supplying a new finite time:
`renderFrame()` with no (or a non-finite) argument, or an animated-loop
callback. -/
inductive FrameEvent
  | renderNone (time : Option JsNum) (now : ℚ)
  | loop (time : ℚ)

/-- Validity of a `FrameEvent`: a `renderNone` event must not carry a finite
time argument (those are `renderFrame(t)` calls, not covered). -/
def FrameEvent.noNewTime : FrameEvent → Bool
  | .renderNone (some (JsNum.fin _)) _ => false
  | _ => true

/-- Run a frame event. -/
def stepFrame (s : TimeState) : FrameEvent → TimeState × ℚ
  | .renderNone time now => renderFrame s time now
  | .loop time => loopFrame s time

/-- Run a list of frame events, collecting the drawn times. -/
def runTrace (s : TimeState) : List FrameEvent → TimeState × List ℚ
  | [] => (s, [])
  | ev :: rest =>
    let r := stepFrame s ev
    let rr := runTrace r.1 rest
    (rr.1, r.2 :: rr.2)

/-- The observable effects of one `generateDitheredGradientImage` call. -/
structure ExportEffects where
  hostCreated : Bool
  hostRemoved : Bool
  stylesSaved : Bool
  stylesRestored : Bool
  pipelineCreated : Bool
  pipelineDisposed : Bool
deriving DecidableEq

/-- No effect performed yet. -/
def noEffects : ExportEffects :=
  ⟨false, false, false, false, false, false⟩

/-- Outcome of `generateDitheredGradientImage`. -/
inductive ExportOutcome
  | ok
  | errInvalidDims
  | errConstruct
  | errRender
  | errEncode
deriving DecidableEq

/-- The dimension validation of `generateDitheredGradientImage`: it throws
when width or height is non-finite or ≤ 0. -/
def validDims (w h : JsNum) : Bool :=
  match w, h with
  | .fin a, .fin b => decide (0 < a) && decide (0 < b)
  | _, _ => false

/-- Exporter `generateDitheredGradientImage`, modelled on its effects: validation
happens before any host or pipeline is created; a host is created (and
appended) only when none is provided, otherwise the provided host's styles
are saved; the try-block constructs the pipeline and renders/encodes (each of
which may fail, modelled by the three flags); the finally-block always
disposes a constructed pipeline, removes a created host, and restores a
provided host's styles. -/
def generateDitheredGradientImage (w h : JsNum)
    (providedHost constructFails renderFails encodeFails : Bool) :
    ExportOutcome × ExportEffects :=
  if validDims w h = false then (ExportOutcome.errInvalidDims, noEffects)
  else
    let e0 := if providedHost then { noEffects with stylesSaved := true }
              else { noEffects with hostCreated := true }
    let body : ExportOutcome × ExportEffects :=
      if constructFails then (ExportOutcome.errConstruct, e0)
      else
        let e1 := { e0 with pipelineCreated := true }
        if renderFails then (ExportOutcome.errRender, e1)
        else if encodeFails then (ExportOutcome.errEncode, e1)
        else (ExportOutcome.ok, e1)
    let e2 := { body.2 with
      pipelineDisposed := body.2.pipelineCreated
      hostRemoved := body.2.hostCreated
      stylesRestored := !body.2.hostCreated }
    (body.1, e2)

/-- Hexadecimal digit test. -/
def isHexDigitChar (c : Char) : Bool :=
  c.isDigit || ('a' ≤ c && c ≤ 'f') || ('A' ≤ c && c ≤ 'F')

/-- Modelled from the spec (claim C9's wording, for refutation): a color in
"6-digit hexadecimal form with a leading `#`" is a 7-character string: `#`
followed by exactly six hexadecimal digits. -/
def isSixDigitHexColor (l : List Char) : Bool :=
  l.length = 7 && l.head? = some '#' && (l.drop 1).all isHexDigitChar

/-! ## Theorems -/

/-- Every element fetched from a list of naturals all below `n` (with default
`0` and `0 < n`) is below `n`. -/
lemma List.getD_lt_of_forall_lt (n : ℕ) :
    ∀ (l : List ℕ) (i : ℕ), (∀ a ∈ l, a < n) → 0 < n → l.getD i 0 < n := by
  intro l
  induction l with
  | nil => intro i _ hn; simpa [List.getD] using hn
  | cons a tl ih =>
    intro i hall hn
    cases i with
    | zero => simpa [List.getD] using hall a (by simp)
    | succ j =>
      simpa [List.getD] using ih j (fun b hb => hall b (by simp [hb])) hn

/-- C1: For every pixel, with base color (R,G,B), threshold t, merged levels L
and mixStrength m (= clamp(ditherStrength,0,1) when enabled, 0 when disabled),
the shader's quantized value equals
`round(clamp(0.2126·R + 0.7152·G + 0.0722·B + (t − 0.5)·m, 0, 1) · L) / L`,
and L is at least 2. -/
theorem shaderQuantize_round_formula (p : DitherConfigOpt) (r g b t : ℚ) :
    shaderQuantize r g b t (mixStrengthOf (mergeDitherConfig p))
        (colorStepsOf (mergeDitherConfig p))
      = ((round (clamp (0.2126 * r + 0.7152 * g + 0.0722 * b
            + (t - 0.5) * mixStrengthOf (mergeDitherConfig p)) 0 1
            * ((mergeDitherConfig p).levels : ℚ)) : ℤ) : ℚ)
          / ((mergeDitherConfig p).levels : ℚ)
    ∧ 2 ≤ (mergeDitherConfig p).levels := by
  have hL : 2 ≤ (mergeDitherConfig p).levels := by
    simp only [mergeDitherConfig]
    exact le_min (le_max_right _ _) (by norm_num)
  refine ⟨?_, hL⟩
  have hLQ : (2 : ℚ) ≤ ((mergeDitherConfig p).levels : ℚ) := by exact_mod_cast hL
  simp only [shaderQuantize, colorStepsOf, luminanceOf]
  rw [max_eq_right hLQ, max_eq_left hLQ]
  have harg : r * 0.2126 + g * 0.7152 + b * 0.0722
        + (t - 0.5) * mixStrengthOf (mergeDitherConfig p)
      = 0.2126 * r + 0.7152 * g + 0.0722 * b
        + (t - 0.5) * mixStrengthOf (mergeDitherConfig p) := by ring
  rw [harg, round_eq]
  norm_num

/-- C2: For sizes 2, 4 and 8, the ordered-dither threshold at any grid cell
equals the literal row-major Bayer matrix entry indexed by the cell position
modulo the matrix size, divided by the matrix cell count (4, 16, 64), and
every such threshold lies in [0, 1). -/
theorem bayerThreshold_matrix_and_range (x y : ℤ) :
    (bayerThreshold x y 2 = (BAYER_2X2.getD ((y % 2) * 2 + x % 2).toNat 0 : ℚ) / 4
      ∧ 0 ≤ bayerThreshold x y 2 ∧ bayerThreshold x y 2 < 1)
    ∧ (bayerThreshold x y 4 = (BAYER_4X4.getD ((y % 4) * 4 + x % 4).toNat 0 : ℚ) / 16
      ∧ 0 ≤ bayerThreshold x y 4 ∧ bayerThreshold x y 4 < 1)
    ∧ (bayerThreshold x y 8 = (BAYER_8X8.getD ((y % 8) * 8 + x % 8).toNat 0 : ℚ) / 64
      ∧ 0 ≤ bayerThreshold x y 8 ∧ bayerThreshold x y 8 < 1) := by
  have b2 := List.getD_lt_of_forall_lt 4 BAYER_2X2
    ((y % 2) * 2 + x % 2).toNat (by decide) (by norm_num)
  have b4 := List.getD_lt_of_forall_lt 16 BAYER_4X4
    ((y % 4) * 4 + x % 4).toNat (by decide) (by norm_num)
  have b8 := List.getD_lt_of_forall_lt 64 BAYER_8X8
    ((y % 8) * 8 + x % 8).toNat (by decide) (by norm_num)
  have e2 : bayerThreshold x y 2
      = (BAYER_2X2.getD ((y % 2) * 2 + x % 2).toNat 0 : ℚ) / 4 := rfl
  have e4 : bayerThreshold x y 4
      = (BAYER_4X4.getD ((y % 4) * 4 + x % 4).toNat 0 : ℚ) / 16 := rfl
  have e8 : bayerThreshold x y 8
      = (BAYER_8X8.getD ((y % 8) * 8 + x % 8).toNat 0 : ℚ) / 64 := rfl
  refine ⟨⟨e2, ?_, ?_⟩, ⟨e4, ?_, ?_⟩, ⟨e8, ?_, ?_⟩⟩
  · rw [e2]; positivity
  · rw [e2, div_lt_one (by norm_num)]; exact_mod_cast b2
  · rw [e4]; positivity
  · rw [e4, div_lt_one (by norm_num)]; exact_mod_cast b4
  · rw [e8]; positivity
  · rw [e8, div_lt_one (by norm_num)]; exact_mod_cast b8

/-- Shifting a 4×4 grid coordinate by 4 on either axis leaves the Bayer
threshold unchanged. -/
lemma bayerThreshold_shift (g h : ℤ) :
    bayerThreshold (g + 4) h 4 = bayerThreshold g h 4
    ∧ bayerThreshold g (h + 4) 4 = bayerThreshold g h 4 := by
  constructor
  · have hx : (g + 4) % ((4 : ℕ) : ℤ) = g % ((4 : ℕ) : ℤ) := by
      push_cast; omega
    simp [bayerThreshold, hx]
  · have hy : (h + 4) % ((4 : ℕ) : ℤ) = h % ((4 : ℕ) : ℤ) := by
      push_cast; omega
    simp [bayerThreshold, hy]

/-- C4 counterexample: with merged `pixelSize = 0.5` and pixel ratio 1, the
claimed period `4 · pixelSize · devicePixelRatio = 2` is not a period of the
4×4 dither threshold: the threshold at x = 2 differs from the one at x = 0. -/
theorem sampleThreshold_4x4_claimed_period_fails :
    (mergeDitherConfig { pixelSize := some (1/2) }).pixelSize = 1/2
    ∧ sampleThreshold (0 + 4 * (1/2) * 1) 0 3 (uPxSizeOf (1/2) 1)
      ≠ sampleThreshold 0 0 3 (uPxSizeOf (1/2) 1) := by
  constructor
  · norm_num [mergeDitherConfig, clamp]
  · norm_num [sampleThreshold, uPxSizeOf, bayerThreshold, BAYER_4X4]
    decide

/-- C4 amended: for ditherType 4×4 the threshold is periodic with period
`4 · max(1, pixelSize) · max(1, devicePixelRatio)` (the shader's effective
cell size `u_pxSize`) along each axis. -/
theorem sampleThreshold_4x4_periodic (px py pixelSize ratio : ℚ) :
    sampleThreshold (px + 4 * uPxSizeOf pixelSize ratio) py 3
        (uPxSizeOf pixelSize ratio)
      = sampleThreshold px py 3 (uPxSizeOf pixelSize ratio)
    ∧ sampleThreshold px (py + 4 * uPxSizeOf pixelSize ratio) 3
        (uPxSizeOf pixelSize ratio)
      = sampleThreshold px py 3 (uPxSizeOf pixelSize ratio) := by
  have ha : (1 : ℚ) ≤ max 1 pixelSize := le_max_left _ _
  have hb : (1 : ℚ) ≤ max ratio 1 := le_max_right _ _
  have hs1 : (1 : ℚ) ≤ uPxSizeOf pixelSize ratio := by
    have := mul_le_mul ha hb (by norm_num) (le_trans zero_le_one ha)
    simpa [uPxSizeOf] using this
  have hpos : (0 : ℚ) < uPxSizeOf pixelSize ratio := lt_of_lt_of_le zero_lt_one hs1
  have hs0 : uPxSizeOf pixelSize ratio ≠ 0 := ne_of_gt hpos
  have hmax : max (uPxSizeOf pixelSize ratio) 1 = uPxSizeOf pixelSize ratio :=
    max_eq_left hs1
  have hred : ∀ a b : ℚ, sampleThreshold a b 3 (uPxSizeOf pixelSize ratio)
      = bayerThreshold ⌊a / max (uPxSizeOf pixelSize ratio) 1⌋
          ⌊b / max (uPxSizeOf pixelSize ratio) 1⌋ 4 := fun a b => rfl
  have hfloor : ∀ q : ℚ,
      ⌊(q + 4 * uPxSizeOf pixelSize ratio) / uPxSizeOf pixelSize ratio⌋
        = ⌊q / uPxSizeOf pixelSize ratio⌋ + 4 := by
    intro q
    have hdiv : (q + 4 * uPxSizeOf pixelSize ratio) / uPxSizeOf pixelSize ratio
        = q / uPxSizeOf pixelSize ratio + 4 := by field_simp
    rw [hdiv, show (4 : ℚ) = ((4 : ℤ) : ℚ) by norm_num, Int.floor_add_int]
  constructor
  · rw [hred, hred, hmax, hfloor]
    exact (bayerThreshold_shift _ _).1
  · rw [hred, hred, hmax, hfloor]
    exact (bayerThreshold_shift _ _).2

/-- C3: In two/three-tone recolorization with merged `levels = 4` (so
`topThreshold = 1.02 − 0.02·4 = 0.94`) and palette colors of full opacity (as
produced by `hexToVec4`), `quantized = 1` yields the full-weight highlight
color and `quantized = 0` yields the background color only, before the final
`mixStrength` blend. -/
theorem paletteOriginalColors_boundary (front back highlight : Vec4)
    (hf : front.a = 1) (hb : back.a = 1) (hh : highlight.a = 1) :
    (mergeDitherConfig { levels := some 4, useOriginalColors := some true }).levels = 4
    ∧ (mergeDitherConfig
        { levels := some 4, useOriginalColors := some true }).useOriginalColors = true
    ∧ paletteOriginalColors
        (max (colorStepsOf
          (mergeDitherConfig { levels := some 4, useOriginalColors := some true })) 2)
        1 front back highlight
      = (highlight.r, highlight.g, highlight.b)
    ∧ paletteOriginalColors
        (max (colorStepsOf
          (mergeDitherConfig { levels := some 4, useOriginalColors := some true })) 2)
        0 front back highlight
      = (back.r, back.g, back.b) := by
  have hlev : (mergeDitherConfig
      { levels := some 4, useOriginalColors := some true }).levels = 4 := by
    norm_num [mergeDitherConfig, jsRound]
  have hsteps : max (colorStepsOf
      (mergeDitherConfig { levels := some 4, useOriginalColors := some true })) 2
      = (4 : ℚ) := by
    rw [colorStepsOf, hlev]; norm_num [max_def]
  refine ⟨hlev, rfl, ?_, ?_⟩
  · rw [hsteps]
    norm_num [paletteOriginalColors, stepG, mixG, hf, hb, hh, max_def, Prod.ext_iff]
  · rw [hsteps]
    norm_num [paletteOriginalColors, stepG, mixG, hf, hb, hh, max_def, Prod.ext_iff]

/-- Witness for C3 at concrete palette colors. -/
theorem paletteOriginalColors_boundary_witness :
    paletteOriginalColors 4 1 ⟨1, 0, 0, 1⟩ ⟨0, 0, 1, 1⟩ ⟨0, 1, 0, 1⟩
      = (0, 1, 0)
    ∧ paletteOriginalColors 4 0 ⟨1, 0, 0, 1⟩ ⟨0, 0, 1, 1⟩ ⟨0, 1, 0, 1⟩
      = (0, 0, 1) := by
  have h := paletteOriginalColors_boundary ⟨1, 0, 0, 1⟩ ⟨0, 0, 1, 1⟩ ⟨0, 1, 0, 1⟩
    rfl rfl rfl
  have hsteps : max (colorStepsOf
      (mergeDitherConfig { levels := some 4, useOriginalColors := some true })) 2
      = (4 : ℚ) := by
    rw [colorStepsOf, h.1]; norm_num [max_def]
  exact ⟨by rw [← hsteps]; exact h.2.2.1, by rw [← hsteps]; exact h.2.2.2⟩

/-- C6 counterexample: with raw devicePixelRatio 3, no explicit renderScale
and a 100×100 container, the code clamps the dpr to 2.5 before multiplying
by the heuristic scale 0.6 and yields 1.5, while the claimed formula
`clamp(devicePixelRatio · scale, MIN, MAX)` yields 1.8. -/
theorem handleResize_pixelRatio_counterexample :
    (handleResize ⟨0, 0, 1, 1, 1, 1, 1, 1, 1, 1, 1⟩ true 100 100 3 none).pixelRatio
      = 3/2
    ∧ claimedPixelRatio 100 100 3 none = 9/5
    ∧ (3/2 : ℚ) ≠ 9/5 := by
  refine ⟨?_, ?_, by norm_num⟩
  · norm_num [handleResize, clamp, autoRenderScale, PIXEL_RATIO_MIN,
      PIXEL_RATIO_MAX, min_def, max_def]
  · norm_num [claimedPixelRatio, clamp, autoRenderScale, PIXEL_RATIO_MIN,
      PIXEL_RATIO_MAX, min_def, max_def]

/-- C6 amended: on every (forced) resize, the effective pixel ratio is
`clamp(clamp(devicePixelRatio, MIN, MAX) · scale, MIN, MAX)` where `scale` is
the explicit renderScale when set and otherwise the automatic heuristic
evaluated on the clamped device pixel ratio. -/
theorem handleResize_pixelRatio_formula (s : ResizeState)
    (rectW rectH rawDpr : ℚ) (renderScale : Option ℚ) :
    (handleResize s true rectW rectH rawDpr renderScale).pixelRatio
      = clamp (clamp rawDpr PIXEL_RATIO_MIN PIXEL_RATIO_MAX
          * renderScale.getD (autoRenderScale (max 1 ⌊rectW⌋) (max 1 ⌊rectH⌋)
              (clamp rawDpr PIXEL_RATIO_MIN PIXEL_RATIO_MAX)))
        PIXEL_RATIO_MIN PIXEL_RATIO_MAX
    ∧ PIXEL_RATIO_MIN
        ≤ (handleResize s true rectW rectH rawDpr renderScale).pixelRatio
    ∧ (handleResize s true rectW rectH rawDpr renderScale).pixelRatio
        ≤ PIXEL_RATIO_MAX := by
  refine ⟨rfl, ?_, ?_⟩
  · rw [show (handleResize s true rectW rectH rawDpr renderScale).pixelRatio
        = clamp (clamp rawDpr PIXEL_RATIO_MIN PIXEL_RATIO_MAX
            * renderScale.getD (autoRenderScale (max 1 ⌊rectW⌋) (max 1 ⌊rectH⌋)
                (clamp rawDpr PIXEL_RATIO_MIN PIXEL_RATIO_MAX)))
          PIXEL_RATIO_MIN PIXEL_RATIO_MAX from rfl]
    exact le_min (le_max_right _ _)
      (by norm_num [PIXEL_RATIO_MIN, PIXEL_RATIO_MAX])
  · rw [show (handleResize s true rectW rectH rawDpr renderScale).pixelRatio
        = clamp (clamp rawDpr PIXEL_RATIO_MIN PIXEL_RATIO_MAX
            * renderScale.getD (autoRenderScale (max 1 ⌊rectW⌋) (max 1 ⌊rectH⌋)
                (clamp rawDpr PIXEL_RATIO_MIN PIXEL_RATIO_MAX)))
          PIXEL_RATIO_MIN PIXEL_RATIO_MAX from rfl]
    exact min_le_right _ _

/-- C8: `handleResize` with `force = false` and unchanged floored container
dimensions changes nothing: the whole sizing state (recorded dimensions,
pixel ratio, renderer size, render-target size, camera aspect and
post-material resolution) is returned untouched. -/
theorem handleResize_noop (s : ResizeState) (rectW rectH rawDpr : ℚ)
    (renderScale : Option ℚ)
    (h1 : 1 ≤ s.lastContainerWidth) (h2 : 1 ≤ s.lastContainerHeight)
    (hw : ⌊rectW⌋ = s.lastContainerWidth)
    (hh : ⌊rectH⌋ = s.lastContainerHeight) :
    handleResize s false rectW rectH rawDpr renderScale = s := by
  have hW : max 1 ⌊rectW⌋ = s.lastContainerWidth := by
    rw [hw]; exact max_eq_right h1
  have hH : max 1 ⌊rectH⌋ = s.lastContainerHeight := by
    rw [hh]; exact max_eq_right h2
  simp [handleResize, hW, hH]

/-- Witness for C8 at concrete state and rect. -/
theorem handleResize_noop_witness :
    handleResize ⟨3, 2, 1, 3, 2, 1, 3, 2, 3/2, 3, 2⟩ false (7/2) (5/2) 3 none
      = ⟨3, 2, 1, 3, 2, 1, 3, 2, 3/2, 3, 2⟩ :=
  handleResize_noop _ _ _ _ _ (by norm_num) (by norm_num)
    (by norm_num) (by norm_num)

/-- C9 counterexample: the accepted palette color "abc" is stored as "#abc",
which is not a 6-digit hexadecimal color. -/
theorem normalizeColor_not_sixDigit :
    (mergeDitherConfig
        { colorFront := some ['a', 'b', 'c'] }).colorFront = ['#', 'a', 'b', 'c']
    ∧ isSixDigitHexColor ['#', 'a', 'b', 'c'] = false := by
  constructor
  · decide
  · decide

/-- Helper fact: `normalizeColor` yields a list starting with `'#'` whenever the fallback
does. -/
lemma normalizeColor_head (v : Option (List Char)) (fb : List Char)
    (hfb : fb.head? = some '#') : (normalizeColor v fb).head? = some '#' := by
  cases v with
  | none => simpa [normalizeColor] using hfb
  | some l =>
    simp only [normalizeColor]
    by_cases h1 : trimChars l = []
    · simpa [h1] using hfb
    · by_cases h2 : (trimChars l).head? = some '#'
      · simp [h1, h2]
      · simp [h1, h2]

/-- C9 amended: every palette color stored by the merge has a leading `#`
(prepended when missing; blank or absent values fall back to the `#`-prefixed
defaults) — but it is not necessarily in 6-digit hexadecimal form. -/
theorem mergeDitherConfig_colors_lead_hash (p : DitherConfigOpt) :
    (mergeDitherConfig p).colorFront.head? = some '#'
    ∧ (mergeDitherConfig p).colorBack.head? = some '#'
    ∧ (mergeDitherConfig p).colorHighlight.head? = some '#' :=
  ⟨normalizeColor_head _ _ (by decide),
   normalizeColor_head _ _ (by decide),
   normalizeColor_head _ _ (by decide)⟩

/-- C7: `generateDitheredGradientImage` rejects non-finite or non-positive
dimensions before creating any host or pipeline, and past validation the
finally-block runs on the success path and every failure path: the pipeline
is disposed whenever it was constructed, a created host is removed, and a
caller-supplied host's styles are restored. -/
theorem generateImage_validation_and_cleanup (w h : JsNum)
    (ph cf rf ef : Bool) :
    (validDims w h = false →
      generateDitheredGradientImage w h ph cf rf ef
        = (ExportOutcome.errInvalidDims, noEffects))
    ∧ (validDims w h = true →
        (generateDitheredGradientImage w h ph cf rf ef).2.pipelineCreated = !cf
        ∧ (generateDitheredGradientImage w h ph cf rf ef).2.pipelineDisposed = !cf
        ∧ (generateDitheredGradientImage w h ph cf rf ef).2.hostCreated = !ph
        ∧ (generateDitheredGradientImage w h ph cf rf ef).2.hostRemoved = !ph
        ∧ (generateDitheredGradientImage w h ph cf rf ef).2.stylesSaved = ph
        ∧ (generateDitheredGradientImage w h ph cf rf ef).2.stylesRestored = ph
        ∧ ((generateDitheredGradientImage w h ph cf rf ef).1 = ExportOutcome.ok
            ↔ cf = false ∧ rf = false ∧ ef = false)) := by
  constructor
  · intro hv
    simp [generateDitheredGradientImage, hv]
  · intro hv
    simp only [generateDitheredGradientImage, hv]
    cases ph <;> cases cf <;> cases rf <;> cases ef <;> simp [noEffects]

/-- Witness for C7: an invalid call performs no effect; a valid call with a
failing pipeline constructor still removes the host it created. -/
theorem generateImage_validation_and_cleanup_witness :
    generateDitheredGradientImage (JsNum.fin 1) JsNum.nan true true true true
      = (ExportOutcome.errInvalidDims, noEffects)
    ∧ (generateDitheredGradientImage (JsNum.fin 2) (JsNum.fin 3)
        false true false false).2.hostRemoved = !false :=
  ⟨(generateImage_validation_and_cleanup _ _ _ _ _ _).1 (by decide),
   ((generateImage_validation_and_cleanup (JsNum.fin 2) (JsNum.fin 3)
      false true false false).2 (by decide)).2.2.2.1⟩

/-- A frame event that supplies no new finite time never changes the stored
manual time, and draws at the manual time when one is set. -/
lemma stepFrame_preserves_manual (s : TimeState) (ev : FrameEvent)
    (hev : ev.noNewTime = true) :
    (stepFrame s ev).1.manualTime = s.manualTime
    ∧ ∀ t, s.manualTime = some t → (stepFrame s ev).2 = t := by
  cases ev with
  | renderNone time now =>
    rcases time with _ | j
    · constructor
      · simp only [stepFrame, renderFrame]
        cases hm : s.manualTime with
        | some m => simp [hm]
        | none => by_cases h0 : s.startTime = 0 <;> simp [h0, hm]
      · intro t hm
        simp [stepFrame, renderFrame, hm]
    · cases j with
      | fin q => simp [FrameEvent.noNewTime] at hev
      | nan =>
        constructor
        · simp only [stepFrame, renderFrame]
          cases hm : s.manualTime with
          | some m => simp [hm]
          | none => by_cases h0 : s.startTime = 0 <;> simp [h0, hm]
        · intro t hm
          simp [stepFrame, renderFrame, hm]
      | posInf =>
        constructor
        · simp only [stepFrame, renderFrame]
          cases hm : s.manualTime with
          | some m => simp [hm]
          | none => by_cases h0 : s.startTime = 0 <;> simp [h0, hm]
        · intro t hm
          simp [stepFrame, renderFrame, hm]
      | negInf =>
        constructor
        · simp only [stepFrame, renderFrame]
          cases hm : s.manualTime with
          | some m => simp [hm]
          | none => by_cases h0 : s.startTime = 0 <;> simp [h0, hm]
        · intro t hm
          simp [stepFrame, renderFrame, hm]
  | loop time =>
    constructor
    · simp only [stepFrame, loopFrame]
      by_cases h0 : s.startTime = 0 <;> simp [h0]
    · intro t hm
      by_cases h0 : s.startTime = 0 <;> simp [stepFrame, loopFrame, h0, hm]

/-- Running any trace of no-new-time frame events from a state with manual
time `t` keeps the manual time and draws every frame at `t`. -/
lemma runTrace_manual (t : ℚ) : ∀ (evs : List FrameEvent) (s : TimeState),
    s.manualTime = some t → (∀ ev ∈ evs, ev.noNewTime = true) →
    (runTrace s evs).1.manualTime = some t
    ∧ ∀ d ∈ (runTrace s evs).2, d = t := by
  intro evs
  induction evs with
  | nil =>
    intro s hm _
    simp [runTrace, hm]
  | cons ev rest ih =>
    intro s hm hall
    have hev := stepFrame_preserves_manual s ev (hall ev (by simp))
    have hm1 : (stepFrame s ev).1.manualTime = some t := hev.1.trans hm
    have ihr := ih (stepFrame s ev).1 hm1 (fun e he => hall e (by simp [he]))
    refine ⟨ihr.1, ?_⟩
    intro d hd
    simp only [runTrace, List.mem_cons] at hd
    rcases hd with hd | hd
    · rw [hd]; exact hev.2 t hm
    · exact ihr.2 d hd

/-- C10: `renderFrame(t)` with finite `t` draws at `t` and persistently sets
the manual time: every subsequent frame that supplies no new finite time
(`renderFrame()` with absent or non-finite argument, animated-loop frames)
draws at `t` and keeps the manual time; no frame event clears the manual
time; `setManualTime` with null or a non-finite value (and only those)
clears it, while a finite value stores that value. -/
theorem renderFrame_manual_time_persists (s : TimeState) (now t : ℚ)
    (evs : List FrameEvent) (hevs : ∀ ev ∈ evs, ev.noNewTime = true) :
    (renderFrame s (some (JsNum.fin t)) now).2 = t
    ∧ (renderFrame s (some (JsNum.fin t)) now).1.manualTime = some t
    ∧ (runTrace (renderFrame s (some (JsNum.fin t)) now).1 evs).1.manualTime
        = some t
    ∧ (∀ d ∈ (runTrace (renderFrame s (some (JsNum.fin t)) now).1 evs).2,
        d = t)
    ∧ (∀ s2 : TimeState, ∀ ev : FrameEvent, ev.noNewTime = true →
        (stepFrame s2 ev).1.manualTime = s2.manualTime)
    ∧ (∀ s2 : TimeState,
        (setManualTime s2 none).1.manualTime = none
        ∧ (setManualTime s2 (some JsNum.nan)).1.manualTime = none
        ∧ (setManualTime s2 (some JsNum.posInf)).1.manualTime = none
        ∧ (setManualTime s2 (some JsNum.negInf)).1.manualTime = none)
    ∧ (∀ s2 : TimeState, ∀ q : ℚ,
        (setManualTime s2 (some (JsNum.fin q))).1.manualTime = some q) := by
  have hset : (renderFrame s (some (JsNum.fin t)) now).1.manualTime = some t := rfl
  have htrace := runTrace_manual t evs
    (renderFrame s (some (JsNum.fin t)) now).1 hset hevs
  refine ⟨rfl, hset, htrace.1, htrace.2, ?_, ?_, ?_⟩
  · intro s2 ev hev
    exact (stepFrame_preserves_manual s2 ev hev).1
  · intro s2
    exact ⟨rfl, rfl, rfl, rfl⟩
  · intro s2 q
    exact rfl

/-- Witness for C10 at a concrete trace. -/
theorem renderFrame_manual_time_persists_witness :
    (runTrace (renderFrame ⟨none, 0⟩ (some (JsNum.fin 7)) 5).1
        [FrameEvent.renderNone none 9, FrameEvent.loop 11]).1.manualTime
      = some 7
    ∧ ∀ d ∈ (runTrace (renderFrame ⟨none, 0⟩ (some (JsNum.fin 7)) 5).1
        [FrameEvent.renderNone none 9, FrameEvent.loop 11]).2, d = 7 := by
  have h := renderFrame_manual_time_persists ⟨none, 0⟩ 5 7
    [FrameEvent.renderNone none 9, FrameEvent.loop 11] (by decide)
  exact ⟨h.2.2.1, h.2.2.2.1⟩

/-- C5: Merging never rejects numeric values: `levels` is rounded then clamped
to [2,16] (20 ↦ 16, 1 ↦ 2), `ditherStrength` is clamped to [0,1] (5 ↦ 1),
`pixelSize` is clamped to [0.5,8]. -/
theorem mergeDitherConfig_clamps (p : DitherConfigOpt) :
    (mergeDitherConfig p).levels = min (max (jsRound (p.levels.getD 5)) 2) 16
    ∧ 2 ≤ (mergeDitherConfig p).levels ∧ (mergeDitherConfig p).levels ≤ 16
    ∧ (mergeDitherConfig p).ditherStrength = clamp (p.ditherStrength.getD 1) 0 1
    ∧ 0 ≤ (mergeDitherConfig p).ditherStrength
    ∧ (mergeDitherConfig p).ditherStrength ≤ 1
    ∧ (mergeDitherConfig p).pixelSize = clamp (p.pixelSize.getD 2) (1/2) 8
    ∧ 1/2 ≤ (mergeDitherConfig p).pixelSize
    ∧ (mergeDitherConfig p).pixelSize ≤ 8
    ∧ (mergeDitherConfig { levels := some 20 }).levels = 16
    ∧ (mergeDitherConfig { levels := some 1 }).levels = 2
    ∧ (mergeDitherConfig { ditherStrength := some 5 }).ditherStrength = 1 := by
  refine ⟨rfl, ?_, ?_, rfl, ?_, ?_, rfl, ?_, ?_, ?_, ?_, ?_⟩
  · exact le_min (le_max_right _ _) (by norm_num)
  · exact min_le_right _ _
  · exact le_min (le_max_right _ _) zero_le_one
  · exact min_le_right _ _
  · exact le_min (le_max_right _ _) (by norm_num)
  · exact min_le_right _ _
  · norm_num [mergeDitherConfig, jsRound]
  · norm_num [mergeDitherConfig, jsRound]
  · norm_num [mergeDitherConfig, clamp]

end Dice
